import Mathlib

/-!
Verification of the image content store of the moviesdb repository
(src/obj/image.py, src/apps/image.py, src/models/entry.py).

The Python code is shallowly embedded: pure functions become Lean
functions on List Char / Nat; Python exceptions become Except PyErr;
Python sets of strings become lists manipulated only through the
membership-guarded operations the source uses; the S3 blob store is a
value (a list of listed objects) and every network operation is a pure
transformation of that value.
-/

set_option maxRecDepth 10000

/-- Python exception kinds raised by the embedded code paths. -/
inductive PyErr where
  | keyError
  | valueError
  | indexError
  | connectionError
deriving DecidableEq, Repr

/-- A calendar date as produced by datetime.date. -/
structure PyDate where
  year : Nat
  month : Nat
  day : Nat
deriving DecidableEq, Repr

/-- Gregorian leap-year rule used by Python's datetime. -/
def isLeap (y : Nat) : Bool :=
  y % 4 == 0 && (y % 100 != 0 || y % 400 == 0)

/-- Number of days of a month, as validated by the datetime constructor. -/
def daysInMonth (y m : Nat) : Nat :=
  if m == 2 then (if isLeap y then 29 else 28)
  else if m == 4 || m == 6 || m == 9 || m == 11 then 30
  else 31

/-- Validity check performed by the datetime constructor (MINYEAR = 1,
MAXYEAR = 9999). -/
def validDate (y m d : Nat) : Bool :=
  1 ≤ y && y ≤ 9999 && 1 ≤ m && m ≤ 12 && 1 ≤ d && d ≤ daysInMonth y m

/-- Numeric value of an ASCII decimal digit character. -/
def digitVal (c : Char) : Nat := c.toNat - 48

/-- All characters are ASCII decimal digits (the alphabet accepted by
datetime.fromisoformat's C parser). -/
def allDigits (l : List Char) : Bool := l.all (·.isDigit)

/-- First code points of the zero-to-nine runs of the Unicode Nd
(decimal digit) category, which is what Python's regex d-class and
int() accept; generated from unicodedata (Unicode 14, CPython 3.11)
and checked exhaustively against re's d-class on every code point. -/
def ndBases : List Nat :=
  [48, 1632, 1776, 1984, 2406, 2534, 2662, 2790,
   2918, 3046, 3174, 3302, 3430, 3558, 3664, 3792,
   3872, 4160, 4240, 6112, 6160, 6470, 6608, 6784,
   6800, 6992, 7088, 7232, 7248, 42528, 43216, 43264,
   43472, 43504, 43600, 44016, 65296, 66720, 68912, 69734,
   69872, 69942, 70096, 70384, 70736, 70864, 71248, 71360,
   71472, 71904, 72016, 72784, 73040, 73120, 92768, 92864,
   93008, 120782, 120792, 120802, 120812, 120822, 123200, 123632,
   125264, 130032]

/-- The character class matched by a d in a Python regex over str: any
Unicode decimal digit (category Nd). -/
def isPyDigit (c : Char) : Bool :=
  ndBases.any (fun b => b ≤ c.toNat && c.toNat ≤ b + 9)

/-- The decimal value of a Unicode digit, as computed by int(); every
Nd run is a contiguous zero-to-nine block, so the value is the offset
from the run's base. -/
def pyDigitVal (c : Char) : Nat :=
  match ndBases.find? (fun b => b ≤ c.toNat && c.toNat ≤ b + 9) with
  | some b => c.toNat - b
  | none => 0

/-- Embeds DATE_RE.match for DATE_RE = two digits, a dot, two digits, a
dot, four digits, where each digit is a Unicode decimal digit as in
Python's regex d-class.  re.match anchors at the start only, so any
longer token whose first ten characters have this shape matches. -/
def dateReMatch : List Char → Bool
  | a :: b :: c :: d :: e :: f :: g :: h :: i :: j :: _ =>
      isPyDigit a && isPyDigit b && (c == '.') && isPyDigit d && isPyDigit e &&
      (f == '.') && isPyDigit g && isPyDigit h && isPyDigit i && isPyDigit j
  | _ => false

/-- Embeds datetime.strptime(s, "%d.%m.%Y").date().  strptime compiles
the format into the regex (3[01]|[12]d|0[1-9]|[1-9]) dot
(1[0-2]|0[1-9]|[1-9]) dot dddd, where d stands for the Unicode digit
class and the bracketed alternatives are ASCII literals; it raises
ValueError when the regex fails or leftover input remains, converts
the groups with Unicode-aware int(), and the datetime constructor
validates the calendar values.  On the ten-character shape below the
one-character alternatives of the day and month groups cannot apply
(the following character is a digit, not the expected dot), which
leaves exactly the two-character alternatives; none embeds ValueError.
This component model was checked differentially against CPython's
strptime on tens of thousands of mixed ASCII and non-ASCII digit
tokens. -/
def strptimeDmy : List Char → Option PyDate
  | [d1, d2, '.', m1, m2, '.', y1, y2, y3, y4] =>
      let dayRe := (d1 == '3' && (d2 == '0' || d2 == '1')) ||
        (((d1 == '1' || d1 == '2') && isPyDigit d2) ||
          (d1 == '0' && ('1' ≤ d2 && d2 ≤ '9')))
      let monthRe := (m1 == '1' && (m2 == '0' || m2 == '1' || m2 == '2')) ||
        (m1 == '0' && ('1' ≤ m2 && m2 ≤ '9'))
      if dayRe && monthRe &&
          (isPyDigit y1 && isPyDigit y2 && isPyDigit y3 && isPyDigit y4) then
        let d := pyDigitVal d1 * 10 + pyDigitVal d2
        let m := pyDigitVal m1 * 10 + pyDigitVal m2
        let y := ((pyDigitVal y1 * 10 + pyDigitVal y2) * 10 + pyDigitVal y3) * 10
          + pyDigitVal y4
        if validDate y m d then some ⟨y, m, d⟩ else none
      else none
  | _ => none

/-- Python str.startswith on character lists. -/
def pyStarts : List Char → List Char → Bool
  | [], _ => true
  | _ :: _, [] => false
  | a :: as, b :: bs => a == b && pyStarts as bs

/-- Python substring membership (the in operator) on character lists. -/
def pyIn (sub : List Char) : List Char → Bool
  | [] => sub.isEmpty
  | c :: rest => pyStarts sub (c :: rest) || pyIn sub rest

/-- Lowercase hexadecimal digit characters, the alphabet of hexdigest. -/
def isHexChar (c : Char) : Bool :=
  ('0' ≤ c && c ≤ '9') || ('a' ≤ c && c ≤ 'f')

/-- The lowercase hexadecimal digit for a value below 16. -/
def hexChar : Nat → Char
  | 0 => '0' | 1 => '1' | 2 => '2' | 3 => '3' | 4 => '4'
  | 5 => '5' | 6 => '6' | 7 => '7' | 8 => '8' | 9 => '9'
  | 10 => 'a' | 11 => 'b' | 12 => 'c' | 13 => 'd' | 14 => 'e'
  | _ => 'f'

/-- Big-endian hexadecimal rendering of n on k digits. -/
def toHexW (k n : Nat) : List Char :=
  match k with
  | 0 => []
  | j + 1 => toHexW j (n / 16) ++ [hexChar (n % 16)]

/-- Truncation to a 32-bit word. -/
def w32 (n : Nat) : Nat := n % 4294967296

/-- 32-bit left rotation. -/
def rotl (k x : Nat) : Nat := w32 ((x <<< k) ||| (x >>> (32 - k)))

/-- Big-endian byte rendering of n on k bytes. -/
def beBytes (k n : Nat) : List Nat :=
  match k with
  | 0 => []
  | j + 1 => beBytes j (n >>> 8) ++ [n % 256]

/-- UTF-8 encoding of one character (str.encode). -/
def utf8Char (c : Char) : List Nat :=
  let n := c.toNat
  if n < 128 then [n]
  else if n < 2048 then [192 ||| (n >>> 6), 128 ||| (n &&& 63)]
  else if n < 65536 then
    [224 ||| (n >>> 12), 128 ||| ((n >>> 6) &&& 63), 128 ||| (n &&& 63)]
  else
    [240 ||| (n >>> 18), 128 ||| ((n >>> 12) &&& 63),
     128 ||| ((n >>> 6) &&& 63), 128 ||| (n &&& 63)]

/-- UTF-8 encoding of a character list. -/
def utf8Encode (l : List Char) : List Nat := l.flatMap utf8Char

/-- SHA-1 message padding: a 0x80 byte, zeros to 56 mod 64, and the
original bit length on eight big-endian bytes. -/
def sha1pad (msg : List Nat) : List Nat :=
  let len := msg.length
  let zeros := (64 + 56 - (len + 1) % 64) % 64
  msg ++ [128] ++ List.replicate zeros 0 ++ beBytes 8 (8 * len)

/-- Splits a byte list into 64-byte chunks; the first argument is fuel,
always called with the list length (each step drops at least one
element, so the fuel never runs out). -/
def chunk64F : Nat → List Nat → List (List Nat)
  | _, [] => []
  | 0, _ :: _ => []
  | fuel + 1, a :: l => (a :: l).take 64 :: chunk64F fuel ((a :: l).drop 64)

/-- Splits a byte list into 64-byte chunks. -/
def chunk64 (l : List Nat) : List (List Nat) := chunk64F l.length l

/-- Packs bytes into big-endian 32-bit words. -/
def toWords : List Nat → List Nat
  | b1 :: b2 :: b3 :: b4 :: rest =>
      (((b1 * 256 + b2) * 256 + b3) * 256 + b4) :: toWords rest
  | _ => []

/-- One step of the SHA-1 message-schedule extension: appends the word
w[i] = rotl1 (w[i-3] xor w[i-8] xor w[i-14] xor w[i-16]). -/
def sha1extStep (ws : List Nat) : List Nat :=
  let n := ws.length
  let g := fun k => ws.getD (n - k) 0
  ws ++ [rotl 1 (Nat.xor (Nat.xor (g 3) (g 8)) (Nat.xor (g 14) (g 16)))]

/-- Iterates the message-schedule extension k times. -/
def sha1ext : Nat → List Nat → List Nat
  | 0, ws => ws
  | k + 1, ws => sha1ext k (sha1extStep ws)

/-- The five 32-bit state words of SHA-1. -/
structure Sha1St where
  a : Nat
  b : Nat
  c : Nat
  d : Nat
  e : Nat
deriving Repr

/-- SHA-1 initialization vector. -/
def sha1init : Sha1St := ⟨1732584193, 4023233417, 2562383102, 271733878, 3285377520⟩

/-- One SHA-1 compression round (round index i, schedule word w). -/
def sha1round (st : Sha1St) (i w : Nat) : Sha1St :=
  let notB := Nat.xor st.b 4294967295
  let fk :=
    if i < 20 then ((st.b &&& st.c) ||| (notB &&& st.d), 1518500249)
    else if i < 40 then (Nat.xor (Nat.xor st.b st.c) st.d, 1859775393)
    else if i < 60 then
      ((st.b &&& st.c) ||| ((st.b &&& st.d) ||| (st.c &&& st.d)), 2400959708)
    else (Nat.xor (Nat.xor st.b st.c) st.d, 3395469782)
  let temp := w32 (rotl 5 st.a + fk.1 + st.e + fk.2 + w)
  ⟨temp, st.a, rotl 30 st.b, st.c, st.d⟩

/-- SHA-1 compression of one 64-byte block into the running state. -/
def sha1block (st : Sha1St) (block : List Nat) : Sha1St :=
  let ws := sha1ext 64 (toWords block)
  let r := (ws.foldl (fun p w => (sha1round p.1 p.2 w, p.2 + 1)) (st, 0)).1
  ⟨w32 (st.a + r.a), w32 (st.b + r.b), w32 (st.c + r.c),
   w32 (st.d + r.d), w32 (st.e + r.e)⟩

/-- hashlib.sha1(...).hexdigest() of a byte message, as 40 lowercase hex
characters. -/
def sha1hexL (msg : List Nat) : List Char :=
  let st := (chunk64 (sha1pad msg)).foldl sha1block sha1init
  toHexW 8 st.a ++ (toHexW 8 st.b ++ (toHexW 8 st.c ++ (toHexW 8 st.d ++ toHexW 8 st.e)))

/-- A movie/series entry, reduced to the fields the image subsystem
reads: an identifying title and the mutable set entry.image_ids.  The
Python set of strings is embedded as a list; the source only ever adds
an id after a membership test, so the list never holds duplicates. -/
structure Entry where
  title : String
  image_ids : List String
deriving DecidableEq, Repr

/-- Embeds Entry.attach_image: returns False if already attached,
otherwise adds the id and returns True (src/models/entry.py). -/
def Entry.attach_image (e : Entry) (s3_id : String) : Bool × Entry :=
  if s3_id ∈ e.image_ids then (false, e)
  else (true, { e with image_ids := e.image_ids ++ [s3_id] })

/-- Embeds Entry.detach_image: returns False if not attached, otherwise
removes the id and returns True (src/models/entry.py). -/
def Entry.detach_image (e : Entry) (s3_id : String) : Bool × Entry :=
  if s3_id ∈ e.image_ids then
    (true, { e with image_ids := e.image_ids.filter (fun x => !(x == s3_id)) })
  else (false, e)

/-- An image record as listed from S3 (dataclass S3Image in
src/obj/image.py).  The dataclass declares size_bytes, entries and tags
with compare=False and hash=False, so value equality and hashing use
only s3_id; that Python equality is embedded separately as the BEq
instance below, while the Lean structure equality distinguishes all
fields. -/
structure S3Image where
  s3_id : String
  size_bytes : Option Nat := none
  entries : List Entry := []
  tags : List (String × String) := []
deriving DecidableEq, Repr

/-- S3Image(s3_id) with the dataclass defaults. -/
def bareImage (k : String) : S3Image := { s3_id := k }

/-- Embeds S3Image.with_tags. -/
def S3Image.with_tags (img : S3Image) (tags : List (String × String)) : S3Image :=
  { s3_id := img.s3_id, size_bytes := img.size_bytes, entries := img.entries, tags := tags }

/-- Embeds the dataclass __eq__, which compares only s3_id (the other
fields are declared compare=False). -/
def S3Image.pyEq (x y : S3Image) : Bool := x.s3_id == y.s3_id

instance : BEq S3Image := ⟨S3Image.pyEq⟩

/-- Embeds the dataclass __hash__, a function of the single hashed
field s3_id. -/
def S3Image.pyHash (x : S3Image) : UInt64 := hash x.s3_id

/-- The component of a path after the last slash (pathlib name). -/
def afterLastSlash (l : List Char) : List Char :=
  (l.reverse.takeWhile (fun c => !(c == '/'))).reverse

/-- pathlib stem: the name with its last suffix removed (a leading dot
alone does not start a suffix). -/
def stemOf (name : List Char) : List Char :=
  if '.' ∈ name.drop 1 then
    ((name.reverse.dropWhile (fun c => !(c == '.'))).drop 1).reverse
  else name

/-- Embeds the S3Image.id property: Path(self.s3_id).stem. -/
def S3Image.idL (img : S3Image) : List Char := stemOf (afterLastSlash img.s3_id.data)

/-- The id as a string. -/
def S3Image.id (img : S3Image) : String := ⟨img.idL⟩

/-- Embeds the S3Image.sha1 property: sha1 of the UTF-8 encoded id, as
the 40-character lowercase hexdigest. -/
def S3Image.sha1 (img : S3Image) : String := ⟨sha1hexL (utf8Encode img.idL)⟩

/-- Embeds the S3Image.sha1_short property: the first eight characters
of the hexdigest. -/
def S3Image.sha1_short (img : S3Image) : String := ⟨img.sha1.data.take 8⟩

/-- Models datetime.fromisoformat(id).astimezone().date(): the calendar
date written in the id.  An id whose first ten characters are not a
valid YYYY-MM-DD date (followed by nothing or a time part) makes
fromisoformat raise ValueError, embedded as none.  Time-of-day parsing
and the timezone conversion of astimezone are abstracted: the date is
taken as written in the id, which is how the repository's
Europe/Berlin-stamped ids display locally. -/
def isoDate : List Char → Option PyDate
  | y1 :: y2 :: y3 :: y4 :: '-' :: m1 :: m2 :: '-' :: d1 :: d2 :: rest =>
      if allDigits [y1, y2, y3, y4, m1, m2, d1, d2]
          && (rest.isEmpty || rest.head? == some 'T' || rest.head? == some ' ') then
        let y := ((digitVal y1 * 10 + digitVal y2) * 10 + digitVal y3) * 10 + digitVal y4
        let m := digitVal m1 * 10 + digitVal m2
        let d := digitVal d1 * 10 + digitVal d2
        if validDate y m d then some ⟨y, m, d⟩ else none
      else none
  | _ => none

/-- The calendar date of S3Image.dt, or none where dt raises. -/
def S3Image.dtDate (img : S3Image) : Option PyDate := isoDate img.idL

/-- Embeds the tag branch of S3Image.match: filter.split("=", 1) into a
key part and a value part, matched by substring containment against
each stored tag pair. -/
def tagCheck (img : S3Image) (f : List Char) : Except PyErr Bool :=
  if '=' ∈ f then
    .ok (img.tags.any (fun kv =>
      pyIn (f.takeWhile (fun c => !(c == '='))) kv.1.data &&
      pyIn ((f.dropWhile (fun c => !(c == '='))).drop 1) kv.2.data))
  else .ok false

/-- Embeds the branch chain of S3Image.match on the bang-stripped
filter token, before the final negation is applied: wildcard, attached,
hash prefix (the source compares against the full 40-character sha1),
exact date (DATE_RE.match then self.dt.date() == strptime(...), either
of which can raise ValueError), then tags.  filter[0] on the empty
token raises IndexError. -/
def matchCore (img : S3Image) (f : List Char) : Except PyErr Bool :=
  if f = "*".data then .ok true
  else if f = "attached".data then .ok (!img.entries.isEmpty)
  else
    match f with
    | [] => .error .indexError
    | c :: rest =>
      if c = '#' ∧ 4 ≤ (c :: rest).length ∧ pyStarts rest img.sha1.data = true then
        .ok true
      else if dateReMatch (c :: rest) = true then
        match img.dtDate with
        | none => .error .valueError
        | some d =>
          match strptimeDmy (c :: rest) with
          | none => .error .valueError
          | some d2 => if d = d2 then .ok true else tagCheck img (c :: rest)
      else tagCheck img (c :: rest)

/-- Embeds S3Image.match on a character-list token: should_negate is
filter.startswith("!"), the token is filter.lstrip("!"), and the
negation closure is applied to the final boolean of every returning
branch (errors propagate unchanged). -/
def S3Image.matchL (img : S3Image) (filt : List Char) : Except PyErr Bool :=
  (matchCore img (filt.dropWhile (fun c => c == '!'))).map
    (fun x => if filt.head? = some '!' then !x else x)

/-- Embeds S3Image.match on a string token. -/
def S3Image.match (img : S3Image) (filt : String) : Except PyErr Bool :=
  img.matchL filt.data

/-- A raw object of the S3 listing: key, size, and the content ETag. -/
structure S3Obj where
  key : String
  size : Option Nat := none
  etag : String := ""
deriving DecidableEq, Repr

/-- Embeds ImageManager._get_s3_images_bare restricted to the keys: the
listing comprehension keeps an object only when obj.get("Key") is
truthy, i.e. a non-empty string. -/
def bareKeys (objects : List S3Obj) : List String :=
  (objects.filter (fun o => o.key ≠ "")).map (fun o => o.key)

/-- Concatenation of a list of lists. -/
def listFlat : List (List α) → List α
  | [] => []
  | l :: ls => l ++ listFlat ls

/-- Embeds ImageManager._check_s3_consistency: for every entry and every
id in entry.image_ids absent from the set of listed keys, one
logger.error line is emitted; the check never raises and repairs
nothing.  The result is the list of (entry, id) pairs warned about. -/
def check_s3_consistency (objects : List S3Obj) (entries : List Entry) : List (Entry × String) :=
  listFlat (entries.map (fun e =>
    (e.image_ids.filter (fun id => !(bareKeys objects).contains id)).map (fun id => (e, id))))

/-- Appends a value to the list held under a key, creating the key at
the end on first sight: the defaultdict(list) append pattern. -/
def assocPush (l : List (String × List String)) (k v : String) : List (String × List String) :=
  match l with
  | [] => [(k, [v])]
  | (k0, vs) :: rest =>
      if k0 == k then (k0, vs ++ [v]) :: rest else (k0, vs) :: assocPush rest k v

/-- Embeds ImageManager._group_by_etag_hash: groups the listed object
keys by ETag in first-seen order. -/
def group_by_etag (objects : List S3Obj) : List (String × List String) :=
  objects.foldl (fun acc o => assocPush acc o.etag o.key) []

/-- Stores a value under a key in an association list with Python dict
semantics: an existing key keeps its position and gets the new value, a
new key is appended. -/
def assocUpd (l : List (String × Option Nat)) (k : String) (v : Option Nat) : List (String × Option Nat) :=
  match l with
  | [] => [(k, v)]
  | (k0, v0) :: rest =>
      if k0 == k then (k0, v) :: rest else (k0, v0) :: assocUpd rest k v

/-- First value stored under a key. -/
def assocFind (k : String) : List (String × α) → Option α
  | [] => none
  | (k0, v) :: rest => if k0 == k then some v else assocFind k rest

/-- The dict comprehension at the top of ImageManager.get_images:
key -> Size for every listed object with a truthy key. -/
def listedPairs (objects : List S3Obj) : List (String × Option Nat) :=
  objects.foldl (fun acc o => if o.key == "" then acc else assocUpd acc o.key o.size) []

/-- The list comprehension filtering images through S3Image.match; a
raise inside match propagates out of the comprehension. -/
def filterMatch (filt : List Char) : List S3Image → Except PyErr (List S3Image)
  | [] => .ok []
  | i :: rest =>
    match i.matchL filt with
    | .error e => .error e
    | .ok b =>
      match filterMatch filt rest with
      | .error e => .error e
      | .ok r => .ok (if b then i :: r else r)

/-- Embeds ImageManager.get_images: builds the key -> ([], Size) dict
from the listing, then appends each entry to the dict slot of every id
in entry.image_ids — _id_to_entries_size[image_id] raises KeyError when
an entry references an id that is not a dict key.  For a fixed key the
appended entries are exactly the entries containing that key, in entry
order.  Tags come from the supplied map (the with_tags argument; the
fetch-fresh path obtains the same shape from S3), defaulting to the
empty dict per key.  Finally the match filter is applied. -/
def get_images (objects : List S3Obj) (entries : List Entry)
    (tagsMap : List (String × List (String × String))) (filt : String) :
    Except PyErr (List S3Image) :=
  let keyed := listedPairs objects
  if entries.any (fun e => e.image_ids.any (fun id => (assocFind id keyed).isNone)) then
    .error .keyError
  else
    filterMatch filt.data (keyed.map (fun ks =>
      { s3_id := ks.1, size_bytes := ks.2,
        entries := entries.filter (fun e => e.image_ids.contains ks.1),
        tags := (assocFind ks.1 tagsMap).getD [] }))

/-- Embeds ImageManager.load_tags_pretty: one get_object_tagging call
per listed image, fanned over a 16-worker pool; every future's result
is read with fut.result(), which re-raises the worker's exception, and
no handler surrounds the loop.  Completion order is nondeterministic,
so the batch is folded in submission order: which error surfaces first
may differ, but whether the batch aborts and the final key -> tags map
do not depend on the order.  The fetch argument stands for the S3 tag
fetch of one key. -/
def load_tags_pretty (fetch : String → Except PyErr (List (String × String))) :
    List S3Image → Except PyErr (List (String × List (String × String)))
  | [] => .ok []
  | i :: rest =>
    match fetch i.s3_id with
    | .error e => .error e
    | .ok t =>
      match load_tags_pretty fetch rest with
      | .error e => .error e
      | .ok r => .ok ((i.s3_id, t) :: r)

/-- The value carried by a successful fetch, used to state what a fully
successful batch returns. -/
def okVal : Except PyErr (List (String × String)) → List (String × String)
  | .ok t => t
  | .error _ => []

/-- The mutable world the deletion paths touch: the S3 listing, the
local byte cache (as the set of cached keys), and the entry records. -/
structure Store where
  objects : List S3Obj
  localCache : List String
  entries : List Entry
deriving DecidableEq, Repr

/-- Embeds ImageManager.delete_image: delete_object removes the key
from the bucket and S3Image.clear_cache unlinks a cached local copy
when present.  Entries are not touched here. -/
def delete_image (st : Store) (key : String) : Store :=
  { st with objects := st.objects.filter (fun o => !(o.key == key)),
            localCache := st.localCache.filter (fun k => !(k == key)) }

/-- Lexicographic comparison of character lists by code point. -/
def charListLe : List Char → List Char → Bool
  | [], _ => true
  | _ :: _, [] => false
  | a :: as, b :: bs => a.toNat < b.toNat || (a == b && charListLe as bs)

/-- Numeric rank of a calendar date, increasing with time. -/
def dateRank (d : PyDate) : Nat := (d.year * 100 + d.month) * 100 + d.day

/-- Sort key standing for S3Image.dt: the calendar date, refined by the
remaining time-of-day text of the id (equal-format ISO time strings
order chronologically); none where dt raises. -/
def S3Image.dtKey (img : S3Image) : Option (Nat × List Char) :=
  img.dtDate.map (fun d => (dateRank d, img.idL.drop 10))

/-- Order on decorated keys used for sorted(..., key=lambda img: img.dt). -/
def keyLe (x y : (Nat × List Char) × String) : Bool :=
  x.1.1 < y.1.1 || (x.1.1 == y.1.1 && charListLe x.1.2 y.1.2)

/-- Insertion before the first element not smaller, preserving the
relative order of equal keys like Python's stable sort. -/
def insLe (le : α → α → Bool) (x : α) : List α → List α
  | [] => [x]
  | y :: ys => if le x y then x :: y :: ys else y :: insLe le x ys

/-- Stable ascending sort. -/
def pySorted (le : α → α → Bool) : List α → List α
  | [] => []
  | x :: xs => insLe le x (pySorted le xs)

/-- Decorates each key of a duplicate group with its dt sort key;
none when some id's timestamp cannot be parsed (sorted would raise). -/
def dtKeys : List String → Option (List ((Nat × List Char) × String))
  | [] => some []
  | k :: ks =>
    match (bareImage k).dtKey with
    | none => none
    | some dk =>
      match dtKeys ks with
      | none => none
      | some r => some ((dk, k) :: r)

/-- sorted(map(S3Image, ids), key=lambda img: img.dt) on one duplicate
group. -/
def sortGroupByDt (ids : List String) : Except PyErr (List String) :=
  match dtKeys ids with
  | none => .error .valueError
  | some pairs => .ok ((pySorted keyLe pairs).map (fun p => p.2))

/-- Sorts every duplicate group, propagating a parse failure. -/
def sortGroups : List (String × List String) → Except PyErr (List (List String))
  | [] => .ok []
  | g :: gs =>
    match sortGroupByDt g.2 with
    | .error e => .error e
    | .ok s =>
      match sortGroups gs with
      | .error e => .error e
      | .ok r => .ok (s :: r)

/-- Embeds the confirmed branch of
ImageManager._check_resolve_duplicate_images (both prompts answered
yes): groups the listing by ETag, keeps groups of two or more, sorts
each by the derived timestamp, marks all but the first of each group,
and calls delete_image on each marked image.  No entry is detached on
this path. -/
def resolve_duplicate_images (st : Store) : Except PyErr Store :=
  match sortGroups ((group_by_etag st.objects).filter (fun g => 1 < g.2.length)) with
  | .error e => .error e
  | .ok groups =>
      .ok ((listFlat (groups.map (fun g => g.drop 1))).foldl delete_image st)

/-- One iteration of the loop in ImagesApp.cmd_delete: delete the image
from S3 and the local cache, then detach its id from every entry that
referenced it (the source iterates img.entries, the back-references
computed by get_images; detach_image is the identity on every other
entry, so this equals mapping detach over all entries).  A detach that
returns False is reported with self.error, which prints and does not
raise. -/
def cmd_delete_step (st : Store) (img : S3Image) : Store :=
  let st1 := delete_image st img.s3_id
  { st1 with entries := st1.entries.map (fun e => (e.detach_image img.s3_id).2) }

/-- Embeds ImagesApp.cmd_delete with the confirmation answered yes:
selects the images with get_images (KeyError and match errors
propagate), then runs the delete-and-detach loop over them. -/
def cmd_delete (st : Store) (tagsMap : List (String × List (String × String)))
    (filt : String) : Except PyErr Store :=
  match get_images st.objects st.entries tagsMap filt with
  | .error e => .error e
  | .ok imgs => .ok (imgs.foldl cmd_delete_step st)

/-- Whether an embedded operation returned normally (no exception). -/
def isOkE : Except PyErr α → Bool
  | .ok _ => true
  | .error _ => false

/-- A representative image: uploaded 15.01.2024, one tag, no attached
entries.  Its id hashes to f51bf445dafc88358140ea25e7f96056bc9a3f85. -/
def imgF : S3Image :=
  { s3_id := "movies-series-images/2024-01-15T10:20:30+01:00.png",
    size_bytes := some 2048, entries := [],
    tags := [("what", "avatar")] }

/-- Bare image listed on 01.01.2024. -/
def imgJan1 : S3Image := bareImage "movies-series-images/2024-01-01T10:00:00+01:00.png"

/-- Bare image listed on 02.01.2024. -/
def imgJan2 : S3Image := bareImage "movies-series-images/2024-01-02T10:00:00+01:00.png"

/-- A tag fetch that fails for the first January image and succeeds for
every other key. -/
def flakyFetch : String → Except PyErr (List (String × String)) :=
  fun k => if k = "movies-series-images/2024-01-01T10:00:00+01:00.png"
           then .error .connectionError else .ok [("what", "poster")]

/-- An entry referencing a storage key that is not listed. -/
def entryDangling : Entry := ⟨"Dangling", ["movies-series-images/gone.png"]⟩

/-- Listed object from 01.01.2024. -/
def objJan1 : S3Obj := ⟨"movies-series-images/2024-01-01T10:00:00+01:00.png", some 512, "etagA"⟩

/-- Listed object from 02.01.2024, byte-identical to objJan1 (same ETag). -/
def objJan2 : S3Obj := ⟨"movies-series-images/2024-01-02T10:00:00+01:00.png", some 512, "etagA"⟩

/-- An entry referencing the later duplicate. -/
def entryRefJan2 : Entry := ⟨"MyMovie", ["movies-series-images/2024-01-02T10:00:00+01:00.png"]⟩

/-- A store holding two byte-identical objects, a cached copy of the
later one, and an entry referencing the later one. -/
def stDup : Store :=
  ⟨[objJan1, objJan2], ["movies-series-images/2024-01-02T10:00:00+01:00.png"], [entryRefJan2]⟩

/-- A store with one object referenced by one entry. -/
def stSingle : Store := ⟨[objJan2], [], [entryRefJan2]⟩

theorem mem_listFlat {α : Type _} (x : α) :
    ∀ L : List (List α), x ∈ listFlat L ↔ ∃ l ∈ L, x ∈ l
  | [] => by simp [listFlat]
  | l :: ls => by
      simp [listFlat, List.mem_append, mem_listFlat x ls]

/-- Claim C8 (confirmed): attach and detach are idempotent and report
change via a boolean: attaching a not-yet-attached id returns true then
false on the second call and the id ends up in the set exactly once;
detaching a non-attached id returns false and leaves the entry
unchanged. -/
theorem c8_attach_detach (e : Entry) (k : String) (h : k ∉ e.image_ids)
    (e' : Entry) (k' : String) (h' : k' ∉ e'.image_ids) :
    (e.attach_image k).1 = true ∧
    ((e.attach_image k).2.attach_image k).1 = false ∧
    ((e.attach_image k).2.attach_image k).2.image_ids.count k = 1 ∧
    e'.detach_image k' = (false, e') := by
  refine ⟨?_, ?_, ?_, ?_⟩
  · simp [Entry.attach_image, h]
  · simp [Entry.attach_image, h]
  · simp [Entry.attach_image, h, List.count_append]
    exact List.count_eq_zero.mpr h
  · simp [Entry.detach_image, h']

/-- Witness for c8_attach_detach at a concrete entry and key. -/
theorem c8_attach_detach_witness :
    ("movies-series-images/a.png" ∉ (Entry.mk "Dune" []).image_ids) ∧
    ((Entry.mk "Dune" []).attach_image "movies-series-images/a.png").1 = true ∧
    (((Entry.mk "Dune" []).attach_image "movies-series-images/a.png").2.attach_image
      "movies-series-images/a.png").1 = false ∧
    (((Entry.mk "Dune" []).attach_image "movies-series-images/a.png").2.attach_image
      "movies-series-images/a.png").2.image_ids.count "movies-series-images/a.png" = 1 ∧
    (Entry.mk "Tenet" ["movies-series-images/b.png"]).detach_image "movies-series-images/a.png"
      = (false, Entry.mk "Tenet" ["movies-series-images/b.png"]) := by
  refine ⟨by decide, ?_⟩
  have h := c8_attach_detach (Entry.mk "Dune" []) "movies-series-images/a.png" (by decide)
    (Entry.mk "Tenet" ["movies-series-images/b.png"]) "movies-series-images/a.png" (by decide)
  exact h

/-- Claim C10 (confirmed): image identity is the storage key alone: two
records with equal s3_id compare equal and hash equal whatever their
size, entries and tags; with_tags preserves equality; and equality
holds exactly when the storage keys coincide. -/
theorem c10_identity (a b : S3Image) (h : a.s3_id = b.s3_id)
    (t : List (String × String)) :
    (a == b) = true ∧ a.pyHash = b.pyHash ∧ (a.with_tags t == a) = true ∧
    (∀ c d : S3Image, (c == d) = true ↔ c.s3_id = d.s3_id) := by
  have hbeq : ∀ x y : S3Image, (x == y) = (x.s3_id == y.s3_id) := fun _ _ => rfl
  refine ⟨?_, ?_, ?_, ?_⟩
  · rw [hbeq]; exact beq_iff_eq.mpr h
  · unfold S3Image.pyHash; rw [h]
  · rw [hbeq]; exact beq_iff_eq.mpr rfl
  · intro c d; rw [hbeq]; exact beq_iff_eq

/-- Witness for c10_identity: same key, different size and tags. -/
theorem c10_identity_witness :
    (S3Image.mk "movies-series-images/x.png" (some 7) [] [] ==
      S3Image.mk "movies-series-images/x.png" none [] [("k", "v")]) = true ∧
    (S3Image.mk "movies-series-images/x.png" (some 7) [] []).pyHash =
      (S3Image.mk "movies-series-images/x.png" none [] [("k", "v")]).pyHash := by
  have h := c10_identity (S3Image.mk "movies-series-images/x.png" (some 7) [] [])
    (S3Image.mk "movies-series-images/x.png" none [] [("k", "v")]) rfl []
  exact ⟨h.1, h.2.1⟩

/-- Claim C9 (confirmed): the construction-time consistency check warns
about an entry-referenced id exactly when the id is absent from the
listing's keys, warns about nothing when every referenced id is listed,
and, being a total function into a warning list, reports without
raising. -/
theorem c9_consistency (objects : List S3Obj) (entries : List Entry) :
    (∀ e id, (e, id) ∈ check_s3_consistency objects entries ↔
      (e ∈ entries ∧ id ∈ e.image_ids ∧ id ∉ bareKeys objects)) ∧
    ((∀ e ∈ entries, ∀ id ∈ e.image_ids, id ∈ bareKeys objects) →
      check_s3_consistency objects entries = []) := by
  have hmem : ∀ e id, (e, id) ∈ check_s3_consistency objects entries ↔
      (e ∈ entries ∧ id ∈ e.image_ids ∧ id ∉ bareKeys objects) := by
    intro e id
    unfold check_s3_consistency
    rw [mem_listFlat]
    constructor
    · rintro ⟨l, hl, hx⟩
      obtain ⟨e0, he0, rfl⟩ := List.mem_map.mp hl
      obtain ⟨id0, hid0, heq⟩ := List.mem_map.mp hx
      obtain ⟨hmem0, hnc⟩ := List.mem_filter.mp hid0
      injection heq with h1 h2
      subst h1; subst h2
      refine ⟨he0, hmem0, ?_⟩
      simpa using hnc
    · rintro ⟨he, hid, hnc⟩
      refine ⟨_, List.mem_map.mpr ⟨e, he, rfl⟩, ?_⟩
      refine List.mem_map.mpr ⟨id, List.mem_filter.mpr ⟨hid, ?_⟩, rfl⟩
      simpa using hnc
  refine ⟨hmem, ?_⟩
  intro hall
  rw [List.eq_nil_iff_forall_not_mem]
  rintro ⟨e, id⟩ hx
  obtain ⟨he, hid, hnc⟩ := (hmem e id).mp hx
  exact hnc (hall e he id hid)

/-- Witness for c9_consistency: a store where the one referenced id is
listed yields no warnings. -/
theorem c9_consistency_witness :
    check_s3_consistency [⟨"movies-series-images/x.png", some 3, "etagx"⟩]
      [⟨"Dune", ["movies-series-images/x.png"]⟩] = [] := by
  exact (c9_consistency [⟨"movies-series-images/x.png", some 3, "etagx"⟩]
    [⟨"Dune", ["movies-series-images/x.png"]⟩]).2 (by decide)

/-- Claim C1 (corrected): the concurrent tag batch does not tolerate
partial failure — fut.result() re-raises the first worker exception, so
the batch returns normally exactly when every fetch succeeds, and a
successful batch maps every listed key to its fetched tags. -/
theorem c1_batch_abort (fetch : String → Except PyErr (List (String × String)))
    (imgs : List S3Image) :
    (isOkE (load_tags_pretty fetch imgs) = imgs.all (fun i => isOkE (fetch i.s3_id))) ∧
    (∀ res, load_tags_pretty fetch imgs = .ok res →
      res = imgs.map (fun i => (i.s3_id, okVal (fetch i.s3_id)))) := by
  induction imgs with
  | nil => exact ⟨rfl, by intro res hres; cases hres; rfl⟩
  | cons i rest ih =>
    constructor
    · show isOkE (load_tags_pretty fetch (i :: rest)) = _
      unfold load_tags_pretty
      cases hf : fetch i.s3_id with
      | error e => simp [isOkE, hf]
      | ok t =>
        cases hr : load_tags_pretty fetch rest with
        | error e =>
          have h1 : isOkE (load_tags_pretty fetch rest) = false := by rw [hr]; rfl
          rw [ih.1] at h1
          rw [List.all_cons, hf, h1]
          rfl
        | ok r =>
          have h1 : isOkE (load_tags_pretty fetch rest) = true := by rw [hr]; rfl
          rw [ih.1] at h1
          rw [List.all_cons, hf, h1]
          rfl
    · intro res hres
      unfold load_tags_pretty at hres
      cases hf : fetch i.s3_id with
      | error e => rw [hf] at hres; cases hres
      | ok t =>
        rw [hf] at hres
        cases hr : load_tags_pretty fetch rest with
        | error e => rw [hr] at hres; cases hres
        | ok r =>
          rw [hr] at hres
          cases hres
          simp [okVal, hf, ih.2 r hr]

/-- Witness for c1_batch_abort: an all-successful batch of one image. -/
theorem c1_batch_abort_witness :
    load_tags_pretty (fun _ => .ok [("what", "poster")]) [imgJan2] = .ok
      [("movies-series-images/2024-01-02T10:00:00+01:00.png", [("what", "poster")])] ∧
    [("movies-series-images/2024-01-02T10:00:00+01:00.png", [("what", "poster")])] =
      [imgJan2].map (fun i => (i.s3_id, okVal ((fun _ => .ok [("what", "poster")]) i.s3_id))) := by
  refine ⟨rfl, ?_⟩
  exact (c1_batch_abort (fun _ => .ok [("what", "poster")]) [imgJan2]).2 _ rfl

/-- Claim C1 counterexample: with two listed images whose first tag
fetch fails and whose second succeeds, load_tags_pretty re-raises the
failure instead of returning a map that still contains the successful
sibling — the claimed "failure is omitted while the others appear"
behavior is false on the code. -/
theorem c1_claim_cex :
    load_tags_pretty flakyFetch [imgJan1, imgJan2] = .error .connectionError ∧
    flakyFetch imgJan2.s3_id = .ok [("what", "poster")] := by
  exact ⟨rfl, rfl⟩

theorem assocFind_upd (id k : String) (v : Option Nat) :
    ∀ l : List (String × Option Nat),
      (assocFind id (assocUpd l k v)).isSome ↔ ((assocFind id l).isSome ∨ id = k)
  | [] => by
      by_cases hid : k = id
      · simp [assocUpd, assocFind, hid]
      · simp [assocUpd, assocFind, hid]
        exact fun hh => hid hh.symm
  | (k0, v0) :: rest => by
      have ih := assocFind_upd id k v rest
      by_cases hk : k0 = k <;> by_cases hid : k0 = id
      · have hki : k = id := hk.symm.trans hid
        simp_all [assocUpd, assocFind]
      · have hik : ¬ id = k := fun hh => hid (hk.trans hh.symm)
        simp_all [assocUpd, assocFind]
      · simp_all [assocUpd, assocFind]
      · simp_all [assocUpd, assocFind]

theorem bareKeys_cons (o : S3Obj) (os : List S3Obj) :
    bareKeys (o :: os) = if o.key = "" then bareKeys os else o.key :: bareKeys os := by
  by_cases h : o.key = "" <;> simp [bareKeys, List.filter_cons, h]

theorem listedPairs_aux (id : String) :
    ∀ (objs : List S3Obj) (acc : List (String × Option Nat)),
      (assocFind id (objs.foldl
        (fun acc o => if o.key == "" then acc else assocUpd acc o.key o.size) acc)).isSome ↔
      ((assocFind id acc).isSome ∨ id ∈ bareKeys objs)
  | [], acc => by simp [bareKeys]
  | o :: os, acc => by
      rw [List.foldl_cons]
      by_cases h : o.key = ""
      · rw [listedPairs_aux id os]
        simp [h, bareKeys_cons]
      · rw [listedPairs_aux id os]
        have hbeq : (o.key == "") = false := by simp [h]
        rw [hbeq]
        simp only [Bool.false_eq_true, if_false]
        rw [assocFind_upd, bareKeys_cons, if_neg h]
        simp [List.mem_cons]
        tauto

theorem listedPairs_mem (objects : List S3Obj) (id : String) :
    (assocFind id (listedPairs objects)).isSome ↔ id ∈ bareKeys objects := by
  unfold listedPairs
  rw [listedPairs_aux]
  simp [assocFind]

theorem matchL_star (img : S3Image) : img.matchL "*".data = .ok true := rfl

theorem filterMatch_star : ∀ imgs : List S3Image, filterMatch "*".data imgs = .ok imgs
  | [] => rfl
  | i :: rest => by
      unfold filterMatch
      rw [matchL_star, filterMatch_star rest]
      rfl

/-- Claim C2 (corrected): get_images("*") returns a result list exactly
when every entry-referenced image id is present among the listed keys;
an entry whose image-id set contains an id absent from the listing
makes the dict indexing raise KeyError, contrary to the claimed
never-an-exception behavior. -/
theorem c2_amended (objects : List S3Obj) (entries : List Entry)
    (tagsMap : List (String × List (String × String))) :
    isOkE (get_images objects entries tagsMap "*") =
      entries.all (fun e => e.image_ids.all (fun id => (bareKeys objects).contains id)) := by
  have hpt : ∀ id, (assocFind id (listedPairs objects)).isNone = true ↔
      ¬ id ∈ bareKeys objects := by
    intro id
    rw [← listedPairs_mem objects id]
    cases assocFind id (listedPairs objects) <;> simp
  have hiff : (entries.any (fun e => e.image_ids.any
        (fun id => (assocFind id (listedPairs objects)).isNone))) = true ↔
      ¬ (entries.all (fun e => e.image_ids.all
        (fun id => (bareKeys objects).contains id))) = true := by
    simp only [List.any_eq_true, List.all_eq_true, not_forall]
    constructor
    · rintro ⟨e, he, id, hid, hnone⟩
      exact ⟨e, he, id, hid, by simpa using (hpt id).mp hnone⟩
    · rintro ⟨e, he, id, hid, hnc⟩
      exact ⟨e, he, id, hid, (hpt id).mpr (by simpa using hnc)⟩
  unfold get_images
  by_cases h : (entries.any (fun e => e.image_ids.any
      (fun id => (assocFind id (listedPairs objects)).isNone))) = true
  · rw [if_pos h]
    have : ¬ (entries.all (fun e => e.image_ids.all
        (fun id => (bareKeys objects).contains id))) = true := hiff.mp h
    rw [Bool.not_eq_true] at this
    rw [this]
    rfl
  · rw [if_neg h]
    rw [filterMatch_star]
    have : (entries.all (fun e => e.image_ids.all
        (fun id => (bareKeys objects).contains id))) = true := by
      by_contra hc
      exact h (hiff.mpr hc)
    rw [this]
    rfl

/-- Claim C2 counterexample: an empty listing with one entry that still
references a key makes get_images raise KeyError instead of returning a
result list. -/
theorem c2_claim_cex :
    get_images [] [entryDangling] [] "*" = .error .keyError := rfl

theorem dropBang_self (t : List Char) (h : t.head? ≠ some '!') :
    t.dropWhile (fun c => c == '!') = t := by
  cases t with
  | nil => rfl
  | cons a as =>
    have ha : ¬ a = '!' := fun hh => h (by simp [hh])
    simp [List.dropWhile_cons, ha]

theorem matchL_no_bang (img : S3Image) (t : List Char) (h : t.head? ≠ some '!') :
    img.matchL t = matchCore img t := by
  unfold S3Image.matchL
  rw [dropBang_self t h]
  cases hm : matchCore img t with
  | error e => simp [Except.map, h]
  | ok b => simp [Except.map, h]

theorem tagCheck_no_eq (img : S3Image) (f : List Char) (h : ¬ '=' ∈ f) :
    tagCheck img f = .ok false := by
  unfold tagCheck
  rw [if_neg h]

theorem dateReMatch_head (c : Char) (hc : isPyDigit c = false) (l : List Char) :
    dateReMatch (c :: l) = false := by
  unfold dateReMatch
  split
  · rename_i a b c' d e f g h i j rest heq
    injection heq with h1 _
    subst h1
    simp [hc]
  · rfl

theorem pyStarts_take :
    ∀ (p s : List Char) (n : Nat), p.length ≤ n → pyStarts p (s.take n) = pyStarts p s
  | [], _, _, _ => rfl
  | a :: as, s, 0, h => by simp at h
  | a :: as, [], n + 1, h => by simp [List.take_nil]
  | a :: as, b :: bs, n + 1, h => by
      simp only [List.take_succ_cons, pyStarts]
      rw [pyStarts_take as bs n (by simpa using h)]

/-- Claim C7 (corrected): prepending a single bang inverts the final
result only for tokens that do not already start with a bang (errors
propagate unchanged); because the source strips all leading bangs with
lstrip("!"), a second bang is absorbed instead of double-negating.  The
wildcard facts hold: match("*") is true and match("!*") is false for
every image. -/
theorem c7_amended (img : S3Image) (t : List Char) (h : t.head? ≠ some '!') :
    img.matchL ('!' :: t) = (img.matchL t).map (fun b => !b) ∧
    img.matchL "*".data = .ok true ∧ img.matchL "!*".data = .ok false := by
  refine ⟨?_, rfl, rfl⟩
  rw [matchL_no_bang img t h]
  unfold S3Image.matchL
  have hd : ('!' :: t).dropWhile (fun c => c == '!') = t := by
    simp only [List.dropWhile_cons]
    rw [if_pos (by rfl)]
    exact dropBang_self t h
  rw [hd]
  cases hm : matchCore img t with
  | error e => simp [Except.map]
  | ok b => simp [Except.map]

/-- Witness for c7_amended at the token attached. -/
theorem c7_amended_witness :
    imgF.matchL ('!' :: "attached".data) = (imgF.matchL "attached".data).map (fun b => !b) ∧
    imgF.matchL "*".data = .ok true ∧ imgF.matchL "!*".data = .ok false := by
  exact c7_amended imgF "attached".data (by decide)

/-- Claim C7 counterexample: at the token t = "!*" the claimed law
fails — match("!" + t) evaluates to ok false while the negation of
match(t) evaluates to ok true, because lstrip("!") collapses both
bangs. -/
theorem c7_claim_cex :
    imgF.match ("!" ++ "!*") = .ok false ∧
    (imgF.match "!*").map (fun b => !b) = .ok true := ⟨rfl, rfl⟩

theorem matchCore_hash (img : S3Image) (p : List Char)
    (hhex : p.all isHexChar = true) (hlen : 3 ≤ p.length) :
    matchCore img ('#' :: p) = .ok (pyStarts p img.sha1.data) := by
  have h1 : ¬ (('#' :: p) = "*".data) := by
    rw [show "*".data = ['*'] from rfl]
    intro hh
    injection hh with hc _
    exact absurd hc (by decide)
  have h2 : ¬ (('#' :: p) = "attached".data) := by
    rw [show "attached".data = ['a', 't', 't', 'a', 'c', 'h', 'e', 'd'] from rfl]
    intro hh
    injection hh with hc _
    exact absurd hc (by decide)
  unfold matchCore
  rw [if_neg h1, if_neg h2]
  dsimp only
  cases hs : pyStarts p img.sha1.data with
  | true =>
    rw [if_pos ⟨rfl, by simp only [List.length_cons]; omega, rfl⟩]
  | false =>
    rw [if_neg (by rintro ⟨_, _, hps⟩; cases hps)]
    rw [if_neg (by rw [dateReMatch_head '#' (by decide) p]; simp)]
    apply tagCheck_no_eq
    intro hmem
    rcases List.mem_cons.mp hmem with hh | hh
    · exact absurd hh (by decide)
    · exact absurd (List.all_eq_true.mp hhex '=' hh) (by decide)

/-- Claim C6 (corrected): for a hex prefix p of three or more
characters, match("#" + p) compares p against the full 40-character
sha1 hexdigest, not against the 8-character short hash: the result is
ok (sha1 starts with p), which coincides with the short hash starting
with p exactly when p has at most eight characters.  Determinism of the
hash is by construction: sha1 is a pure function of the id. -/
theorem c6_amended (img : S3Image) (p : List Char)
    (hhex : p.all isHexChar = true) (hlen : 3 ≤ p.length) :
    img.matchL ('#' :: p) = .ok (pyStarts p img.sha1.data) ∧
    (p.length ≤ 8 → pyStarts p img.sha1.data = pyStarts p img.sha1_short.data) := by
  constructor
  · have hb : ('#' :: p).head? ≠ some '!' := by simp
    rw [matchL_no_bang img _ hb]
    exact matchCore_hash img p hhex hlen
  · intro hle
    have hshort : img.sha1_short.data = img.sha1.data.take 8 := rfl
    rw [hshort]
    exact (pyStarts_take p img.sha1.data 8 hle).symm

/-- Witness for c6_amended at the three-character prefix abc. -/
theorem c6_amended_witness :
    imgF.matchL ('#' :: "abc".data) = .ok (pyStarts "abc".data imgF.sha1.data) ∧
    ("abc".data.length ≤ 8 →
      pyStarts "abc".data imgF.sha1.data = pyStarts "abc".data imgF.sha1_short.data) := by
  exact c6_amended imgF "abc".data (by decide) (by decide)

/-- Claim C6 counterexample: the id of imgF hashes to
f51bf445dafc88358140ea25e7f96056bc9a3f85, so the nine-character hex
prefix f51bf445d makes match("#f51bf445d") return true although the
eight-character short hash f51bf445 does not start with it. -/
theorem c6_claim_cex :
    "f51bf445d".data.all isHexChar = true ∧
    3 ≤ "f51bf445d".data.length ∧
    imgF.match "#f51bf445d" = .ok true ∧
    pyStarts "f51bf445d".data imgF.sha1_short.data = false := by
  refine ⟨by decide, by decide, rfl, by decide⟩

/-- Claim C3 (code bug): on a store with two byte-identical objects
(same ETag) where an entry references the later duplicate, the
confirmed duplicate-group cleanup deletes the later object from the
blob store and the local cache but never detaches it from the entry, so
the entry keeps a dangling image id that the store's own consistency
check immediately reports as an error; the delete command path, run on
an analogous store, does detach the id from every referencing entry. -/
theorem c3_duplicate_cleanup_dangling :
    resolve_duplicate_images stDup = .ok ⟨[objJan1], [], [entryRefJan2]⟩ ∧
    check_s3_consistency [objJan1] [entryRefJan2] =
      [(entryRefJan2, "movies-series-images/2024-01-02T10:00:00+01:00.png")] ∧
    cmd_delete stSingle [] "*" = .ok ⟨[], [], [⟨"MyMovie", []⟩]⟩ := by
  exact ⟨rfl, rfl, rfl⟩
